import Mathlib

/-!
Verification of the authenticated-session and long-running-operation core of
the repository: a shallow embedding of `libcloud/common/openstack.py`
(`OpenStackBaseConnection`) and of
`libcloud/compute/drivers/vcloud.py` (`VCloudNodeDriver._wait_for_task_completion`),
with theorems settling the specification claims about them.

Python optional strings are embedded as `Option String`; Python truthiness of
such a value (`if x:`) is `truthy`, while the distinct Python test `x is None`
is `Option.isNone`.  Machine effects at the boundary (the HTTP transport, the
authentication endpoint, wall-clock readings) are supplied as explicit oracle
lists consumed by the embedded operations.
-/

namespace MistCe

/-- Python truthiness of an optional string: `None` and `""` are falsy. -/
def truthy : Option String → Bool
  | none => false
  | some s => !(s == "")

/-! ## Async task waiter (`VCloudNodeDriver._wait_for_task_completion`) -/

/-- One poll of a task, as observed by `_wait_for_task_completion`:
the `status` attribute of the fetched task element, the optional `Error`
child element with its optional `message` attribute, and the wall-clock
elapsed time `time.time() - start_time` read at the timeout check of the
iteration that processes this poll. -/
structure TaskPoll where
  status : String
  errorElem : Option (Option String)
  elapsed : Int
deriving Repr, DecidableEq

/-- Terminal outcomes of the task waiter.  The source raises a bare
`Exception` with a distinguishing message for the three failure cases; the
embedding separates them into constructors, `error` carrying the message
text interpolated into the raised exception. -/
inductive TaskOutcome where
  | success
  | error (msg : String)
  | canceled
  | timeout
deriving Repr, DecidableEq

/-- Error message computed on an `error` status: `"Unknown error"` when no
`Error` element is present, otherwise the element's `message` attribute
(Python interpolates the value `None` as the text `"None"` when the
attribute is absent). -/
def taskErrorMsg : Option (Option String) → String
  | none => "Unknown error"
  | some none => "None"
  | some (some m) => m

/-- The polling loop of `_wait_for_task_completion` over an oracle list of
polls.  Each iteration first checks the loop condition (`status != "success"`),
then classifies `error` and `canceled`, then compares elapsed time against the
timeout, and only then fetches the next status.  `none` means the oracle was
exhausted before any terminal outcome (the real loop would keep polling). -/
def waitForTask (timeout : Int) : List TaskPoll → Option TaskOutcome
  | [] => none
  | p :: rest =>
    if p.status == "success" then some TaskOutcome.success
    else if p.status == "error" then some (TaskOutcome.error (taskErrorMsg p.errorElem))
    else if p.status == "canceled" then some TaskOutcome.canceled
    else if timeout ≤ p.elapsed then some TaskOutcome.timeout
    else waitForTask timeout rest

/-- A poll at which the loop stops: terminal status or expired deadline. -/
def deciding (timeout : Int) (p : TaskPoll) : Bool :=
  p.status == "success" || p.status == "error" || p.status == "canceled" ||
    decide (timeout ≤ p.elapsed)

/-! ## Data model of the OpenStack connection core -/

/-- One entry of the service catalog returned by authentication. -/
structure CatalogEntry where
  serviceType : String
  serviceName : String
  region : String
  url : String
deriving Repr, DecidableEq

/-- An authentication context produced by a successful handshake: token,
optional expiry, optional user info, raw catalog payload. -/
structure AuthContext where
  token : String
  expires : Option Int
  userInfo : Option String
  urls : List CatalogEntry
deriving Repr, DecidableEq

/-- Constructor-time configuration of `OpenStackBaseConnection`: the
`ex_force_*` keyword arguments together with the class-level defaults
(`auth_url`, `service_type`, `service_name`, `service_region`,
`accept_format`) that provider subclasses set. -/
structure Config where
  classAuthUrl : Option String
  forcedAuthUrl : Option String
  forcedBaseUrl : Option String
  forcedAuthToken : Option String
  forcedServiceType : Option String
  forcedServiceName : Option String
  forcedServiceRegion : Option String
  forcedMicroversion : Option String
  serviceType : Option String
  serviceName : Option String
  serviceRegion : Option String
  acceptFormat : Option String
deriving Repr, DecidableEq

/-- Mutable state of a connection instance: the auth fields copied from the
last successful handshake, the parsed service catalog, the connection info
(the URL the host/port/path were last resolved from), the negotiator's
cached auth context, and event counters for network authentication calls,
cache evictions (`CredentialStore.clear`), and catalog consultations. -/
structure ConnState where
  authToken : Option String
  authTokenExpires : Option Int
  authUserInfo : Option String
  serviceCatalog : Option (List CatalogEntry)
  connInfo : Option String
  osaCtx : Option AuthContext
  authCalls : Nat
  clearCalls : Nat
  catalogLookups : Nat
deriving Repr, DecidableEq

/-- Errors raised inside the connection logic (`LibcloudError` and the
identity module's failures, mapped to the specification's taxonomy). -/
inductive OsError where
  | endpointNotFound
  | emptyEndpointUrl
  | invalidMicroversion
  | authRejected
  | missingCatalog
deriving Repr, DecidableEq

/-- Constructor failures of `OpenStackBaseConnection.__init__`. -/
inductive InitError where
  | tokenWithoutBaseUrl
  | missingAuthUrl
deriving Repr, DecidableEq

/-- The auth URL in effect (`_get_auth_url`): the forced auth URL when one
was passed (an `is not None` test in the source), else the class attribute. -/
def getAuthUrl (cfg : Config) : Option String :=
  match cfg.forcedAuthUrl with
  | some u => some u
  | none => cfg.classAuthUrl

/-- The connection state right after a successful `__init__`: `auth_token`
is preset to the forced token exactly when that token is truthy. -/
def initialState (cfg : Config) : ConnState :=
  { authToken := if truthy cfg.forcedAuthToken then cfg.forcedAuthToken else none
    authTokenExpires := none
    authUserInfo := none
    serviceCatalog := none
    connInfo := none
    osaCtx := none
    authCalls := 0
    clearCalls := 0
    catalogLookups := 0 }

/-- `OpenStackBaseConnection.__init__`: rejects a truthy forced token
without a truthy forced base URL, then requires a truthy auth URL. -/
def initConn (cfg : Config) : Except InitError ConnState :=
  if truthy cfg.forcedAuthToken && !truthy cfg.forcedBaseUrl then
    Except.error InitError.tokenWithoutBaseUrl
  else if !truthy (getAuthUrl cfg) then
    Except.error InitError.missingAuthUrl
  else
    Except.ok (initialState cfg)

/-! ## Endpoint selection (`get_endpoint` and the catalog) -/

/-- Effective service type: the forced override wins when truthy. -/
def effectiveServiceType (cfg : Config) : Option String :=
  if truthy cfg.forcedServiceType then cfg.forcedServiceType else cfg.serviceType

/-- Effective service name: the forced override wins when truthy. -/
def effectiveServiceName (cfg : Config) : Option String :=
  if truthy cfg.forcedServiceName then cfg.forcedServiceName else cfg.serviceName

/-- Effective service region: the forced override wins when truthy. -/
def effectiveServiceRegion (cfg : Config) : Option String :=
  if truthy cfg.forcedServiceRegion then cfg.forcedServiceRegion else cfg.serviceRegion

/-- An absent filter value matches every entry; a present one matches on
equality. -/
def optMatches : Option String → String → Bool
  | none, _ => true
  | some s, v => s == v

/-- Modelled from the spec: `OpenStackServiceCatalog.get_endpoint` lives in
`libcloud/common/openstack_identity.py`, which is not under `src/`.  Per the
specification it filters entries by service type and name, prefers among the
matches one whose region equals the requested region, falls back to the
first type/name match when no region matches, and fails when nothing
matches type and name at all. -/
def catalogGetEndpoint (entries : List CatalogEntry) (ty nm rg : Option String) :
    Except OsError CatalogEntry :=
  let ms := entries.filter (fun e => optMatches ty e.serviceType && optMatches nm e.serviceName)
  match ms.find? (fun e => optMatches rg e.region) with
  | some e => Except.ok e
  | none =>
    match ms with
    | [] => Except.error OsError.endpointNotFound
    | e :: _ => Except.ok e

/-- `OpenStackBaseConnection.get_endpoint`: overlays the forced overrides on
the provider defaults, queries the catalog, and rejects an empty endpoint
URL. -/
def getEndpoint (cfg : Config) (catalog : List CatalogEntry) : Except OsError String :=
  match catalogGetEndpoint catalog (effectiveServiceType cfg) (effectiveServiceName cfg)
      (effectiveServiceRegion cfg) with
  | Except.error e => Except.error e
  | Except.ok ep => if ep.url == "" then Except.error OsError.emptyEndpointUrl else Except.ok ep.url

/-! ## Authentication and host population -/

/-- Modelled from the spec: `is_token_valid` of the authentication
negotiator (`OpenStackIdentityConnection`, not under `src/`): true iff a
cached context holds a non-empty token and, when an expiry is known,
`now + clock_skew < expiry`; a context without expiry is valid until
explicitly evicted. -/
def isTokenValid (now skew : Int) : Option AuthContext → Bool
  | none => false
  | some ctx =>
    !(ctx.token == "") &&
      (match ctx.expires with
       | none => true
       | some e => decide (now + skew < e))

/-- Result of a state-mutating step: the updated connection state, an
optional raised error, and the remaining authentication-endpoint oracle. -/
structure PopResult where
  state : ConnState
  error : Option OsError
  world : List AuthContext
deriving Repr, DecidableEq

/-- The authentication phase of `_populate_hosts_and_request_paths`: when
the negotiator's cached context is not valid, perform the handshake
(consuming the next oracle response as the authentication endpoint's
answer, counted in `authCalls`), store it as the cached context, and copy
token, expiry, user info and catalog onto the connection.  An exhausted
oracle is the endpoint rejecting the handshake; a failed call mutates
nothing. -/
def authStep (now skew : Int) (st : ConnState) (world : List AuthContext) : PopResult :=
  if isTokenValid now skew st.osaCtx then
    { state := st, error := none, world := world }
  else
    match world with
    | [] => { state := st, error := some OsError.authRejected, world := world }
    | ctx :: rest =>
      { state :=
          { st with
            osaCtx := some ctx
            authToken := some ctx.token
            authTokenExpires := ctx.expires
            authUserInfo := ctx.userInfo
            serviceCatalog := some ctx.urls
            authCalls := st.authCalls + 1 }
        error := none
        world := rest }

/-- The URL-resolution phase of `_populate_hosts_and_request_paths`:
`url = self._ex_force_base_url or self.get_endpoint()` — a truthy forced
base URL is used without consulting the catalog; otherwise the catalog is
consulted (counted in `catalogLookups`). -/
def endpointStep (cfg : Config) (st : ConnState) (w : List AuthContext) : PopResult :=
  if truthy cfg.forcedBaseUrl then
    { state := { st with connInfo := cfg.forcedBaseUrl }, error := none, world := w }
  else
    match st.serviceCatalog with
    | none => { state := st, error := some OsError.missingCatalog, world := w }
    | some cat =>
      match getEndpoint cfg cat with
      | Except.error e =>
        { state := { st with catalogLookups := st.catalogLookups + 1 }
          error := some e, world := w }
      | Except.ok u =>
        { state := { st with connInfo := some u, catalogLookups := st.catalogLookups + 1 }
          error := none, world := w }

/-- Continuation of `_populate_hosts_and_request_paths` after the
authentication phase: a raised error propagates, otherwise the
URL-resolution phase runs. -/
def afterAuthStep (cfg : Config) (a : PopResult) : PopResult :=
  match a.error with
  | some _ => a
  | none => endpointStep cfg a.state a.world

/-- `_populate_hosts_and_request_paths`: with a truthy forced auth token the
API is hit directly at the forced base URL and authentication is never
attempted; otherwise the authentication phase runs, then the URL-resolution
phase. -/
def populate (cfg : Config) (now skew : Int) (st : ConnState) (world : List AuthContext) :
    PopResult :=
  if truthy cfg.forcedAuthToken then
    { state := { st with connInfo := cfg.forcedBaseUrl }, error := none, world := world }
  else
    afterAuthStep cfg (authStep now skew st world)

/-! ## Default headers (`add_default_headers`) -/

/-- The default headers injected by the connection. -/
structure Headers where
  xAuthToken : Option String
  accept : Option String
  apiVersion : Option String
deriving Repr, DecidableEq

/-- Splitting a character list on whitespace, accumulating the current
token in reverse: the maximal non-whitespace runs, in order. -/
def wsTokensAux : List Char → List Char → List String
  | [], acc => if acc.isEmpty then [] else [String.mk acc.reverse]
  | c :: cs, acc =>
    if c.isWhitespace then
      if acc.isEmpty then wsTokensAux cs []
      else String.mk acc.reverse :: wsTokensAux cs []
    else wsTokensAux cs (c :: acc)

/-- Tokens of a microversion string: Python `str.strip().split()`, i.e.
maximal runs of non-whitespace characters. -/
def microTokens (m : String) : List String :=
  wsTokensAux m.toList []

/-- Python `str.startswith`: the second string is a prefix of the first,
checked character by character. -/
def listIsPrefix : List Char → List Char → Bool
  | [], _ => true
  | _ :: _, [] => false
  | a :: as, b :: bs => a == b && listIsPrefix as bs

/-- Python `s.startswith(pre)` on strings. -/
def strStartsWith (s pre : String) : Bool :=
  listIsPrefix pre.toList s.toList

/-- Parsing of a configured microversion string in `add_default_headers`:
two tokens give `(service, version)`, one token gives service `"compute"`,
anything else raises `LibcloudError` (`ConfigurationError` in the
specification's taxonomy). -/
def parseMicroversion (m : String) : Except OsError (String × String) :=
  match microTokens m with
  | [sv, v] => Except.ok (sv, v)
  | [v] => Except.ok ("compute", v)
  | _ => Except.error OsError.invalidMicroversion

/-- The guard of the microversion header in `add_default_headers`:
`self.service_type and self.service_type.startswith(service_type)` — it
reads the class-level default service type, not the effective one. -/
def classTypeMatches (cfg : Config) (sv : String) : Bool :=
  match cfg.serviceType with
  | none => false
  | some dt => !(dt == "") && strStartsWith dt sv

/-- `add_default_headers`: always sets the auth-token and accept headers;
with a truthy forced microversion, parses it and attaches the
`OpenStack-API-Version` header exactly when the class default service type
starts with the resolved service name. -/
def addDefaultHeaders (cfg : Config) (authToken : Option String) : Except OsError Headers :=
  let base : Headers := { xAuthToken := authToken, accept := cfg.acceptFormat, apiVersion := none }
  if truthy cfg.forcedMicroversion then
    match parseMicroversion (cfg.forcedMicroversion.getD "") with
    | Except.error e => Except.error e
    | Except.ok sv =>
      if classTypeMatches cfg sv.1 then
        Except.ok { base with apiVersion := some (sv.1 ++ " " ++ sv.2) }
      else
        Except.ok base
  else
    Except.ok base

/-! ## Requests and the 401 eviction -/

/-- One answer of the HTTP transport: a successful body, or an HTTP error
status that the base machinery raises as `BaseHTTPError`. -/
inductive TransportResult where
  | ok (body : String)
  | httpError (code : Nat)
deriving Repr, DecidableEq

/-- Errors surfacing from a request. -/
inductive ReqError where
  | os (e : OsError)
  | http (code : Nat)
  | transportExhausted
deriving Repr, DecidableEq

/-- Outcome of one `request` call: final state, optional error, response
body, the headers that were sent, and the remaining oracles. -/
structure ReqOutcome where
  state : ConnState
  error : Option ReqError
  body : Option String
  headers : Option Headers
  world : List AuthContext
  transport : List TransportResult
deriving Repr, DecidableEq

/-- Continuation of the base request after host population: inject default
headers, then perform exactly one HTTP exchange through the transport. -/
def afterPopulate (cfg : Config) (p : PopResult) (transport : List TransportResult) :
    ReqOutcome :=
  match p.error with
  | some e =>
    { state := p.state, error := some (ReqError.os e), body := none, headers := none
      world := p.world, transport := transport }
  | none =>
    match addDefaultHeaders cfg p.state.authToken with
    | Except.error e =>
      { state := p.state, error := some (ReqError.os e), body := none, headers := none
        world := p.world, transport := transport }
    | Except.ok hs =>
      match transport with
      | [] =>
        { state := p.state, error := some ReqError.transportExhausted, body := none
          headers := some hs, world := p.world, transport := [] }
      | TransportResult.ok b :: ts =>
        { state := p.state, error := none, body := some b, headers := some hs
          world := p.world, transport := ts }
      | TransportResult.httpError c :: ts =>
        { state := p.state, error := some (ReqError.http c), body := none, headers := some hs
          world := p.world, transport := ts }

/-- Modelled from the spec: the base `Connection.request` of
`libcloud/common/base.py` (not under `src/`): runs `morph_action_hook`
(which populates hosts and request paths), injects the default headers,
performs exactly one HTTP exchange through the transport, and raises the
transport's error on an error status. -/
def superRequest (cfg : Config) (now skew : Int) (st : ConnState)
    (world : List AuthContext) (transport : List TransportResult) : ReqOutcome :=
  afterPopulate cfg (populate cfg now skew st world) transport

/-- Modelled from the spec: `clear_cached_auth_context` of the negotiator
(`openstack_identity`, not under `src/`): evicts the cached AuthContext by
one `CredentialStore.clear` call. -/
def clearCachedAuthContext (st : ConnState) : ConnState :=
  { st with osaCtx := none, clearCalls := st.clearCalls + 1 }

/-- The 401 handler of `OpenStackBaseConnection.request`: when the base
request raised `BaseHTTPError` with status 401 and
`self._ex_force_auth_token is None`, evict the cached auth context before
re-raising; otherwise pass the outcome through unchanged. -/
def evict401 (cfg : Config) (r : ReqOutcome) : ReqOutcome :=
  match r.error with
  | some (ReqError.http code) =>
    if code == 401 && cfg.forcedAuthToken.isNone then
      { r with state := clearCachedAuthContext r.state }
    else r
  | _ => r

/-- `OpenStackBaseConnection.request`: delegates to the base request once
and applies the 401 eviction handler to its outcome.  No retry is
performed. -/
def request (cfg : Config) (now skew : Int) (st : ConnState)
    (world : List AuthContext) (transport : List TransportResult) : ReqOutcome :=
  evict401 cfg (superRequest cfg now skew st world transport)

/-- A sequence of `n` consecutive `request` calls threading state and
oracles. -/
def runRequests (cfg : Config) (now skew : Int) :
    Nat → ConnState → List AuthContext → List TransportResult →
    ConnState × List AuthContext × List TransportResult
  | 0, st, w, t => (st, w, t)
  | Nat.succ n, st, w, t =>
    let r := request cfg now skew st w t
    runRequests cfg now skew n r.state r.world r.transport

/-! ## Concrete configurations used as witnesses -/

/-- A plain configuration: no forced token, a forced base URL, a class auth
URL and default service type `compute`. -/
def cfgPlain : Config :=
  { classAuthUrl := some "https://auth.example/v2.0"
    forcedAuthUrl := none
    forcedBaseUrl := some "https://api.example/v2"
    forcedAuthToken := none
    forcedServiceType := none
    forcedServiceName := none
    forcedServiceRegion := none
    forcedMicroversion := none
    serviceType := some "compute"
    serviceName := none
    serviceRegion := none
    acceptFormat := some "application/json" }

/-- A sample authentication response with a non-expiring token. -/
def ctxA : AuthContext := { token := "T1", expires := none, userInfo := none, urls := [] }

/-- A configuration whose default service type is `volume` while the forced
service type is `compute` and a microversion `2.60` is forced. -/
def c2Cfg : Config :=
  { classAuthUrl := some "https://auth.example/v2.0"
    forcedAuthUrl := none
    forcedBaseUrl := none
    forcedAuthToken := none
    forcedServiceType := some "compute"
    forcedServiceName := none
    forcedServiceRegion := none
    forcedMicroversion := some "2.60"
    serviceType := some "volume"
    serviceName := none
    serviceRegion := none
    acceptFormat := none }

/-- A configuration with a forced literal token but no forced base URL. -/
def c8Cfg : Config :=
  { classAuthUrl := some "https://auth.example/v2.0"
    forcedAuthUrl := none
    forcedBaseUrl := none
    forcedAuthToken := some "secret-token"
    forcedServiceType := none
    forcedServiceName := none
    forcedServiceRegion := none
    forcedMicroversion := none
    serviceType := some "compute"
    serviceName := none
    serviceRegion := none
    acceptFormat := none }

/-- A configuration with a forced literal token and a forced base URL. -/
def c3Cfg : Config :=
  { classAuthUrl := some "https://auth.example/v2.0"
    forcedAuthUrl := none
    forcedBaseUrl := some "https://api.example/v2"
    forcedAuthToken := some "FORCED-TOKEN"
    forcedServiceType := none
    forcedServiceName := none
    forcedServiceRegion := none
    forcedMicroversion := none
    serviceType := some "compute"
    serviceName := none
    serviceRegion := none
    acceptFormat := none }

/-- A configuration with an empty-string forced token and no forced base
URL. -/
def c10Cfg : Config :=
  { classAuthUrl := some "https://auth.example/v2.0"
    forcedAuthUrl := none
    forcedBaseUrl := none
    forcedAuthToken := some ""
    forcedServiceType := none
    forcedServiceName := none
    forcedServiceRegion := none
    forcedMicroversion := none
    serviceType := some "compute"
    serviceName := none
    serviceRegion := none
    acceptFormat := none }

/-! ## Helper lemmas -/

/-- The authentication phase never touches the eviction counter. -/
theorem authStep_clearCalls (now skew : Int) (st : ConnState) (w : List AuthContext) :
    (authStep now skew st w).state.clearCalls = st.clearCalls := by
  unfold authStep
  split
  · rfl
  · split <;> rfl

/-- The URL-resolution phase never touches the eviction counter. -/
theorem endpointStep_clearCalls (cfg : Config) (st : ConnState) (w : List AuthContext) :
    (endpointStep cfg st w).state.clearCalls = st.clearCalls := by
  unfold endpointStep
  split
  · rfl
  · split
    · rfl
    · split <;> rfl

/-- Host population never touches the eviction counter. -/
theorem populate_clearCalls (cfg : Config) (now skew : Int) (st : ConnState)
    (w : List AuthContext) :
    (populate cfg now skew st w).state.clearCalls = st.clearCalls := by
  unfold populate afterAuthStep
  split
  · rfl
  · split
    · exact authStep_clearCalls now skew st w
    · rw [endpointStep_clearCalls]
      exact authStep_clearCalls now skew st w

/-- The base request returns the state produced by host population. -/
theorem afterPopulate_state (cfg : Config) (p : PopResult) (tr : List TransportResult) :
    (afterPopulate cfg p tr).state = p.state := by
  unfold afterPopulate
  split
  · rfl
  · split
    · rfl
    · split <;> rfl

/-- The base request returns the authentication oracle left by host
population. -/
theorem afterPopulate_world (cfg : Config) (p : PopResult) (tr : List TransportResult) :
    (afterPopulate cfg p tr).world = p.world := by
  unfold afterPopulate
  split
  · rfl
  · split
    · rfl
    · split <;> rfl

/-- The auth-token header is always the token the connection passed in. -/
theorem addDefaultHeaders_xAuthToken (cfg : Config) (tok : Option String) (hs : Headers)
    (h : addDefaultHeaders cfg tok = Except.ok hs) : hs.xAuthToken = tok := by
  unfold addDefaultHeaders at h
  split at h
  · split at h
    · exact absurd h (by simp)
    · split at h
      · injection h with h2
        rw [← h2]
      · injection h with h2
        rw [← h2]
  · injection h with h2
    rw [← h2]

/-- A truthy optional string is not `none`. -/
theorem truthy_ne_none (o : Option String) (h : truthy o = true) : o.isNone = false := by
  cases o with
  | none => simp [truthy] at h
  | some s => rfl

/-- The URL-resolution phase only touches connection info and the catalog
counter: auth fields, cached context, counters of other kinds and the
oracle are preserved. -/
theorem endpointStep_preserve (cfg : Config) (st : ConnState) (w : List AuthContext) :
    (endpointStep cfg st w).state.authToken = st.authToken ∧
    (endpointStep cfg st w).state.authTokenExpires = st.authTokenExpires ∧
    (endpointStep cfg st w).state.authUserInfo = st.authUserInfo ∧
    (endpointStep cfg st w).state.serviceCatalog = st.serviceCatalog ∧
    (endpointStep cfg st w).state.osaCtx = st.osaCtx ∧
    (endpointStep cfg st w).state.authCalls = st.authCalls ∧
    (endpointStep cfg st w).world = w := by
  unfold endpointStep
  split
  · exact ⟨rfl, rfl, rfl, rfl, rfl, rfl, rfl⟩
  · split
    · exact ⟨rfl, rfl, rfl, rfl, rfl, rfl, rfl⟩
    · split <;> exact ⟨rfl, rfl, rfl, rfl, rfl, rfl, rfl⟩

/-- The continuation after the authentication phase preserves the auth
fields, the cached context, the call counter and the oracle. -/
theorem afterAuthStep_preserve (cfg : Config) (a : PopResult) :
    (afterAuthStep cfg a).state.authToken = a.state.authToken ∧
    (afterAuthStep cfg a).state.authTokenExpires = a.state.authTokenExpires ∧
    (afterAuthStep cfg a).state.authUserInfo = a.state.authUserInfo ∧
    (afterAuthStep cfg a).state.serviceCatalog = a.state.serviceCatalog ∧
    (afterAuthStep cfg a).state.osaCtx = a.state.osaCtx ∧
    (afterAuthStep cfg a).state.authCalls = a.state.authCalls ∧
    (afterAuthStep cfg a).world = a.world := by
  unfold afterAuthStep
  split
  · exact ⟨rfl, rfl, rfl, rfl, rfl, rfl, rfl⟩
  · exact endpointStep_preserve cfg a.state a.world

/-- Without a truthy forced token, host population is the authentication
phase followed by URL resolution. -/
theorem populate_of_not_forced (cfg : Config) (now skew : Int) (st : ConnState)
    (w : List AuthContext) (h : truthy cfg.forcedAuthToken = false) :
    populate cfg now skew st w = afterAuthStep cfg (authStep now skew st w) := by
  simp [populate, h]

/-- The authentication phase with an invalid cached context and an
available oracle response performs exactly the handshake. -/
theorem authStep_of_invalid (now skew : Int) (st : ConnState) (ctx : AuthContext)
    (rest : List AuthContext) (h : isTokenValid now skew st.osaCtx = false) :
    authStep now skew st (ctx :: rest) =
      { state :=
          { st with
            osaCtx := some ctx
            authToken := some ctx.token
            authTokenExpires := ctx.expires
            authUserInfo := ctx.userInfo
            serviceCatalog := some ctx.urls
            authCalls := st.authCalls + 1 }
        error := none
        world := rest } := by
  simp [authStep, h]

/-- The authentication phase with a valid cached context is a no-op. -/
theorem authStep_of_valid (now skew : Int) (st : ConnState) (w : List AuthContext)
    (h : isTokenValid now skew st.osaCtx = true) :
    authStep now skew st w = { state := st, error := none, world := w } := by
  simp [authStep, h]

/-- The authentication phase never consults the service catalog. -/
theorem authStep_catalogLookups (now skew : Int) (st : ConnState) (w : List AuthContext) :
    (authStep now skew st w).state.catalogLookups = st.catalogLookups := by
  unfold authStep
  split
  · rfl
  · split <;> rfl

/-- With a truthy forced base URL, URL resolution uses it directly and the
catalog is not consulted. -/
theorem endpointStep_of_forced_base (cfg : Config) (st : ConnState) (w : List AuthContext)
    (hb : truthy cfg.forcedBaseUrl = true) :
    endpointStep cfg st w =
      { state := { st with connInfo := cfg.forcedBaseUrl }, error := none, world := w } := by
  simp [endpointStep, hb]

/-- One request under a truthy forced literal token: the state only gains
the forced base URL as connection info, and the authentication oracle is
untouched. -/
theorem request_forced_token (cfg : Config) (now skew : Int) (st : ConnState)
    (w : List AuthContext) (t : List TransportResult)
    (h : truthy cfg.forcedAuthToken = true) :
    (request cfg now skew st w t).state = { st with connInfo := cfg.forcedBaseUrl } ∧
    (request cfg now skew st w t).world = w := by
  have hpop : populate cfg now skew st w =
      { state := { st with connInfo := cfg.forcedBaseUrl }, error := none, world := w } := by
    simp [populate, h]
  have hne := truthy_ne_none cfg.forcedAuthToken h
  have hev : ∀ r, evict401 cfg r = r := by
    intro r
    unfold evict401
    split
    · simp [hne]
    · rfl
  constructor
  · unfold request superRequest
    rw [hev, afterPopulate_state, hpop]
  · unfold request superRequest
    rw [hev, afterPopulate_world, hpop]

/-- Iterated requests under a truthy forced literal token keep the token,
the zero authentication count, the forced connection info and the oracle. -/
theorem runRequests_forced_inv (cfg : Config) (now skew : Int)
    (h : truthy cfg.forcedAuthToken = true) :
    ∀ (n : Nat) (st : ConnState) (w : List AuthContext) (t : List TransportResult),
      st.authToken = cfg.forcedAuthToken → st.authCalls = 0 →
      st.connInfo = cfg.forcedBaseUrl →
      (runRequests cfg now skew n st w t).1.authToken = cfg.forcedAuthToken ∧
      (runRequests cfg now skew n st w t).1.authCalls = 0 ∧
      (runRequests cfg now skew n st w t).1.connInfo = cfg.forcedBaseUrl ∧
      (runRequests cfg now skew n st w t).2.1 = w := by
  intro n
  induction n with
  | zero => exact fun st w t h1 h2 h3 => ⟨h1, h2, h3, rfl⟩
  | succ n ih =>
    intro st w t h1 h2 h3
    have hstep := request_forced_token cfg now skew st w t h
    have hnext := ih (request cfg now skew st w t).state w
      (request cfg now skew st w t).transport
      (by rw [hstep.1]; exact h1) (by rw [hstep.1]; exact h2) (by rw [hstep.1])
    rw [show runRequests cfg now skew (Nat.succ n) st w t =
      runRequests cfg now skew n (request cfg now skew st w t).state
        (request cfg now skew st w t).world (request cfg now skew st w t).transport from rfl]
    rw [hstep.2]
    exact hnext

/-- Polls at which the loop does not stop are skipped by the waiter. -/
theorem waitForTask_append_skip (t : Int) (pre l : List TaskPoll)
    (h : ∀ q ∈ pre, deciding t q = false) :
    waitForTask t (pre ++ l) = waitForTask t l := by
  induction pre with
  | nil => rfl
  | cons q pre ih =>
    have hq := h q (List.mem_cons_self q pre)
    simp only [deciding, Bool.or_eq_false_iff, decide_eq_false_iff_not] at hq
    obtain ⟨⟨⟨h1, h2⟩, h3⟩, h4⟩ := hq
    simp only [List.cons_append, waitForTask, h1, h2, h3, if_false, if_neg h4]
    exact ih fun r hr => h r (List.mem_cons_of_mem q hr)

/-! ## Claim theorems -/

/-- C5: for every polled status sequence the waiter's outcome at the first
deciding poll is: normal return on a success status; `TaskError` carrying
the provider-supplied message when an error status has a message, else a
generic message; `TaskCanceledError` on a canceled status; and
`TaskTimeoutError` when elapsed time reaches the timeout before any
terminal status — four mutually distinguishable outcomes. -/
theorem c5_waiter_four_outcomes (t : Int) (pre : List TaskPoll) (p : TaskPoll)
    (post : List TaskPoll) (hpre : ∀ q ∈ pre, deciding t q = false) :
    (p.status = "success" →
      waitForTask t (pre ++ p :: post) = some TaskOutcome.success) ∧
    (p.status = "error" →
      waitForTask t (pre ++ p :: post) = some (TaskOutcome.error (taskErrorMsg p.errorElem)) ∧
      ∀ m, p.errorElem = some (some m) → taskErrorMsg p.errorElem = m) ∧
    (p.status = "canceled" →
      waitForTask t (pre ++ p :: post) = some TaskOutcome.canceled) ∧
    (p.status ≠ "success" → p.status ≠ "error" → p.status ≠ "canceled" → t ≤ p.elapsed →
      waitForTask t (pre ++ p :: post) = some TaskOutcome.timeout) ∧
    (TaskOutcome.success ≠ TaskOutcome.error (taskErrorMsg p.errorElem) ∧
      TaskOutcome.success ≠ TaskOutcome.canceled ∧
      TaskOutcome.success ≠ TaskOutcome.timeout ∧
      TaskOutcome.error (taskErrorMsg p.errorElem) ≠ TaskOutcome.canceled ∧
      TaskOutcome.error (taskErrorMsg p.errorElem) ≠ TaskOutcome.timeout ∧
      TaskOutcome.canceled ≠ TaskOutcome.timeout) := by
  have key := waitForTask_append_skip t pre (p :: post) hpre
  refine ⟨?_, ?_, ?_, ?_, ?_⟩
  · intro hs
    rw [key]
    simp [waitForTask, hs]
  · intro hs
    refine ⟨?_, ?_⟩
    · rw [key]
      simp [waitForTask, hs]
    · intro m hm
      simp [taskErrorMsg, hm]
  · intro hs
    rw [key]
    simp [waitForTask, hs]
  · intro h1 h2 h3 hle
    rw [key]
    simp [waitForTask, beq_iff_eq, h1, h2, h3, if_pos hle]
  · refine ⟨?_, ?_, ?_, ?_, ?_, ?_⟩ <;> intro h <;> exact TaskOutcome.noConfusion h

/-- Witness for C5 at a concrete sequence: one non-deciding running poll
followed by an error poll with the provider message "quota exceeded". -/
theorem c5_witness :
    deciding 10 { status := "running", errorElem := none, elapsed := 0 } = false ∧
    waitForTask 10
        [{ status := "running", errorElem := none, elapsed := 0 },
         { status := "error", errorElem := some (some "quota exceeded"), elapsed := 5 }] =
      some (TaskOutcome.error "quota exceeded") := by
  refine ⟨by decide, ?_⟩
  have h := c5_waiter_four_outcomes 10 [{ status := "running", errorElem := none, elapsed := 0 }]
    { status := "error", errorElem := some (some "quota exceeded"), elapsed := 5 } []
    (by decide)
  exact (h.2.1 rfl).1

/-- C9: the waiter fetches a status before any timeout check and classifies
error and canceled before comparing elapsed time: a first poll reporting
success returns successfully for every timeout value, including zero and
negative ones, and an error or cancellation observed at or after the
deadline is reported as that outcome, not as a timeout. -/
theorem c9_fetch_before_timeout (t : Int) (rest : List TaskPoll)
    (elem : Option (Option String)) (el : Int) :
    (waitForTask t ({ status := "success", errorElem := elem, elapsed := el } :: rest) =
      some TaskOutcome.success) ∧
    (t ≤ el →
      waitForTask t ({ status := "error", errorElem := elem, elapsed := el } :: rest) =
        some (TaskOutcome.error (taskErrorMsg elem))) ∧
    (t ≤ el →
      waitForTask t ({ status := "canceled", errorElem := elem, elapsed := el } :: rest) =
        some TaskOutcome.canceled) := by
  refine ⟨?_, ?_, ?_⟩
  · simp [waitForTask]
  · intro _
    simp [waitForTask]
  · intro _
    simp [waitForTask]

/-- Witness for C9 with a negative timeout: the first poll decides even
though the deadline has long passed. -/
theorem c9_witness :
    (-1 : Int) ≤ 5 ∧
    waitForTask (-1) [{ status := "success", errorElem := none, elapsed := 5 }] =
      some TaskOutcome.success ∧
    waitForTask (-1) [{ status := "canceled", errorElem := none, elapsed := 5 }] =
      some TaskOutcome.canceled := by
  refine ⟨by decide, ?_, ?_⟩
  · exact (c9_fetch_before_timeout (-1) [] none 5).1
  · exact (c9_fetch_before_timeout (-1) [] none 5).2.2 (by decide)

/-- C1: on a request failing with status 401, when no forced literal token
was configured exactly one eviction of the cached auth context is performed
and the error is re-raised without a retry (exactly one transport exchange
is consumed); a configured forced literal token never triggers eviction. -/
theorem c1_single_eviction_on_401 (cfg : Config) (now skew : Int) (st : ConnState)
    (world : List AuthContext) (ts : List TransportResult) (hs : Headers)
    (hp : (populate cfg now skew st world).error = none)
    (hh : addDefaultHeaders cfg (populate cfg now skew st world).state.authToken =
      Except.ok hs) :
    (request cfg now skew st world (TransportResult.httpError 401 :: ts)).error =
        some (ReqError.http 401) ∧
    (request cfg now skew st world (TransportResult.httpError 401 :: ts)).transport = ts ∧
    (cfg.forcedAuthToken = none →
      (request cfg now skew st world (TransportResult.httpError 401 :: ts)).state.clearCalls =
          st.clearCalls + 1 ∧
      (request cfg now skew st world (TransportResult.httpError 401 :: ts)).state.osaCtx =
          none) ∧
    (∀ tok, cfg.forcedAuthToken = some tok →
      (request cfg now skew st world (TransportResult.httpError 401 :: ts)).state.clearCalls =
          st.clearCalls ∧
      (request cfg now skew st world (TransportResult.httpError 401 :: ts)).state =
          (populate cfg now skew st world).state) := by
  have hpc := populate_clearCalls cfg now skew st world
  have hsr : superRequest cfg now skew st world (TransportResult.httpError 401 :: ts) =
      { state := (populate cfg now skew st world).state
        error := some (ReqError.http 401)
        body := none
        headers := some hs
        world := (populate cfg now skew st world).world
        transport := ts } := by
    unfold superRequest afterPopulate
    rw [hp, hh]
  unfold request
  rw [hsr]
  refine ⟨?_, ?_, ?_, ?_⟩
  · cases htok : cfg.forcedAuthToken <;> simp [evict401, htok, clearCachedAuthContext]
  · cases htok : cfg.forcedAuthToken <;> simp [evict401, htok, clearCachedAuthContext]
  · intro h
    simp [evict401, h, clearCachedAuthContext, hpc]
  · intro tok h
    simp [evict401, h, hpc]

/-- Witness for C1: with no forced token and a 401 answer, the eviction
counter rises by exactly one. -/
theorem c1_witness :
    (populate cfgPlain 0 0 (initialState cfgPlain) [ctxA]).error = none ∧
    (request cfgPlain 0 0 (initialState cfgPlain) [ctxA]
        [TransportResult.httpError 401]).state.clearCalls =
      (initialState cfgPlain).clearCalls + 1 := by
  refine ⟨by decide, ?_⟩
  have h := c1_single_eviction_on_401 cfgPlain 0 0 (initialState cfgPlain) [ctxA] []
    { xAuthToken := some "T1", accept := some "application/json", apiVersion := none }
    (by decide) rfl
  exact (h.2.2.1 rfl).1

/-- C4: a configured microversion string is split on whitespace: two tokens
give the pair (service, version) in order, one token gives service
`compute` with that token as version, and any other token count raises a
configuration error. -/
theorem c4_microversion_parse (m : String) (_hm : m ≠ "") :
    (∀ sv v, microTokens m = [sv, v] → parseMicroversion m = Except.ok (sv, v)) ∧
    (∀ v, microTokens m = [v] → parseMicroversion m = Except.ok ("compute", v)) ∧
    ((microTokens m).length ≠ 1 → (microTokens m).length ≠ 2 →
      parseMicroversion m = Except.error OsError.invalidMicroversion) := by
  refine ⟨?_, ?_, ?_⟩
  · intro sv v h
    simp [parseMicroversion, h]
  · intro v h
    simp [parseMicroversion, h]
  · intro h1 h2
    rcases hl : microTokens m with _ | ⟨a, tl⟩
    · simp [parseMicroversion, hl]
    · rcases tl with _ | ⟨b, tl2⟩
      · exact absurd (by simp [hl]) h1
      · rcases tl2 with _ | ⟨c, tl3⟩
        · exact absurd (by simp [hl]) h2
        · simp [parseMicroversion, hl]

/-- Witness for C4: two tokens and one token parsed from concrete
strings. -/
theorem c4_witness :
    ("volume 3.1" : String) ≠ "" ∧
    parseMicroversion "volume 3.1" = Except.ok ("volume", "3.1") ∧
    parseMicroversion "2.60" = Except.ok ("compute", "2.60") := by
  refine ⟨by decide, ?_, ?_⟩
  · exact (c4_microversion_parse "volume 3.1" (by decide)).1 "volume" "3.1" (by decide)
  · exact (c4_microversion_parse "2.60" (by decide)).2.1 "2.60" (by decide)

/-- C8: a truthy forced literal token without a truthy forced base URL
makes construction fail, and no connection state is ever produced. -/
theorem c8_token_requires_base_url (cfg : Config)
    (ht : truthy cfg.forcedAuthToken = true)
    (hb : truthy cfg.forcedBaseUrl = false) :
    initConn cfg = Except.error InitError.tokenWithoutBaseUrl ∧
    ∀ st, initConn cfg ≠ Except.ok st := by
  have he : initConn cfg = Except.error InitError.tokenWithoutBaseUrl := by
    simp [initConn, ht, hb]
  exact ⟨he, fun st h => by simp [he] at h⟩

/-- Witness for C8 at a concrete configuration. -/
theorem c8_witness :
    truthy c8Cfg.forcedAuthToken = true ∧
    truthy c8Cfg.forcedBaseUrl = false ∧
    initConn c8Cfg = Except.error InitError.tokenWithoutBaseUrl := by
  refine ⟨by decide, by decide, ?_⟩
  exact (c8_token_requires_base_url c8Cfg (by decide) (by decide)).1

/-- C10: an empty-string forced token is inconsistent at the interface:
construction without a forced base URL succeeds with no preset token,
requests authenticate normally, and yet a 401 never evicts the cached auth
context because the eviction guard tests for `None` rather than for
truthiness. -/
theorem c10_empty_token_inconsistency (cfg : Config) (now skew : Int)
    (st : ConnState) (world : List AuthContext) (ts : List TransportResult)
    (htok : cfg.forcedAuthToken = some "")
    (hurl : truthy (getAuthUrl cfg) = true) :
    initConn cfg = Except.ok (initialState cfg) ∧
    (initialState cfg).authToken = none ∧
    (isTokenValid now skew st.osaCtx = false →
      ∀ ctx rest, world = ctx :: rest →
        (populate cfg now skew st world).state.authCalls = st.authCalls + 1) ∧
    (∀ tr, request cfg now skew st world tr = superRequest cfg now skew st world tr) ∧
    (request cfg now skew st world (TransportResult.httpError 401 :: ts)).state.clearCalls =
      st.clearCalls := by
  have hnt : truthy cfg.forcedAuthToken = false := by rw [htok]; rfl
  have hne : cfg.forcedAuthToken.isNone = false := by rw [htok]; rfl
  have hev : ∀ r, evict401 cfg r = r := by
    intro r
    unfold evict401
    split
    · simp [hne]
    · rfl
  refine ⟨?_, ?_, ?_, ?_, ?_⟩
  · simp [initConn, hnt, hurl]
  · simp [initialState, hnt]
  · intro hinv ctx rest hw
    subst hw
    rw [populate_of_not_forced cfg now skew st (ctx :: rest) hnt,
      authStep_of_invalid now skew st ctx rest hinv]
    rw [(afterAuthStep_preserve cfg _).2.2.2.2.2.1]
  · intro tr
    unfold request
    rw [hev]
  · unfold request
    rw [hev]
    rw [show (superRequest cfg now skew st world
        (TransportResult.httpError 401 :: ts)).state =
      (populate cfg now skew st world).state from afterPopulate_state cfg _ _]
    exact populate_clearCalls cfg now skew st world

/-- Witness for C10 at a concrete empty-token configuration. -/
theorem c10_witness :
    c10Cfg.forcedAuthToken = some "" ∧
    initConn c10Cfg = Except.ok (initialState c10Cfg) ∧
    (request c10Cfg 0 0 (initialState c10Cfg) []
        [TransportResult.httpError 401]).state.clearCalls =
      (initialState c10Cfg).clearCalls := by
  have h := c10_empty_token_inconsistency c10Cfg 0 0 (initialState c10Cfg) [] [] rfl (by decide)
  exact ⟨rfl, h.1, h.2.2.2.2⟩

/-- C2 counterexample: with default service type `volume`, forced service
type `compute` and forced microversion `2.60`, the effective service type
starts with the resolved service name, yet no microversion header is
attached — the code consults the class default, not the effective type. -/
theorem c2_counterexample :
    effectiveServiceType c2Cfg = some "compute" ∧
    parseMicroversion "2.60" = Except.ok ("compute", "2.60") ∧
    strStartsWith "compute" "compute" = true ∧
    addDefaultHeaders c2Cfg (some "T") =
      Except.ok { xAuthToken := some "T", accept := none, apiVersion := none } := by
  exact ⟨rfl, rfl, rfl, rfl⟩

/-- C2 (amended): the microversion header is attached exactly when the
class-level default service type is truthy and starts with the service name
resolved from the microversion string; the forced service type override is
never consulted by the header logic. -/
theorem c2_amended_header_guard (cfg : Config) (tok : Option String) (sv v : String)
    (hm : truthy cfg.forcedMicroversion = true)
    (hp : parseMicroversion (cfg.forcedMicroversion.getD "") = Except.ok (sv, v)) :
    addDefaultHeaders cfg tok =
      Except.ok
        { xAuthToken := tok
          accept := cfg.acceptFormat
          apiVersion :=
            if classTypeMatches cfg sv then some (sv ++ " " ++ v) else none } ∧
    (∀ o : Option String,
      addDefaultHeaders { cfg with forcedServiceType := o } tok =
        addDefaultHeaders cfg tok) := by
  refine ⟨?_, fun o => rfl⟩
  unfold addDefaultHeaders
  rw [if_pos hm, hp]
  by_cases hc : classTypeMatches cfg sv = true
  · simp [hc]
  · simp [hc]

/-- Witness for the amended C2: the forced microversion resolves to service
`compute`, the default type `volume` does not start with it, so no header
is attached. -/
theorem c2_amended_witness :
    truthy c2Cfg.forcedMicroversion = true ∧
    addDefaultHeaders c2Cfg (some "T") =
      Except.ok { xAuthToken := some "T", accept := none, apiVersion := none } := by
  refine ⟨by decide, ?_⟩
  have h := (c2_amended_header_guard c2Cfg (some "T") "compute" "2.60" (by decide) rfl).1
  simpa [show classTypeMatches c2Cfg "compute" = false from by decide] using h

/-- C3: with a truthy forced literal token (construction then also has a
forced base URL), any number of requests performs zero authentication
calls, never consumes an authentication-endpoint response, keeps the forced
token verbatim as the auth header, and resolves connection info from the
forced base URL verbatim. -/
theorem c3_forced_token_never_authenticates (cfg : Config) (now skew : Int) (n : Nat)
    (st0 : ConnState) (w : List AuthContext) (t : List TransportResult)
    (htok : truthy cfg.forcedAuthToken = true)
    (hinit : initConn cfg = Except.ok st0) :
    (runRequests cfg now skew n st0 w t).1.authCalls = 0 ∧
    (runRequests cfg now skew n st0 w t).2.1 = w ∧
    (runRequests cfg now skew n st0 w t).1.authToken = cfg.forcedAuthToken ∧
    (n ≠ 0 → (runRequests cfg now skew n st0 w t).1.connInfo = cfg.forcedBaseUrl) ∧
    (∀ hs : Headers,
      addDefaultHeaders cfg (runRequests cfg now skew n st0 w t).1.authToken = Except.ok hs →
        hs.xAuthToken = cfg.forcedAuthToken) := by
  have hst0 : st0 = initialState cfg := by
    unfold initConn at hinit
    split at hinit
    · exact absurd hinit (by simp)
    · split at hinit
      · exact absurd hinit (by simp)
      · injection hinit with h2
        exact h2.symm
  have h1 : st0.authToken = cfg.forcedAuthToken := by
    rw [hst0]
    simp [initialState, htok]
  have h2 : st0.authCalls = 0 := by rw [hst0]; rfl
  cases n with
  | zero =>
    refine ⟨h2, rfl, h1, fun h0 => absurd rfl h0, fun hs hh => ?_⟩
    rw [addDefaultHeaders_xAuthToken cfg _ hs hh]
    exact h1
  | succ n =>
    have hstep := request_forced_token cfg now skew st0 w t htok
    have hinv := runRequests_forced_inv cfg now skew htok n
      (request cfg now skew st0 w t).state w (request cfg now skew st0 w t).transport
      (by rw [hstep.1]; exact h1) (by rw [hstep.1]; exact h2) (by rw [hstep.1])
    rw [show runRequests cfg now skew (Nat.succ n) st0 w t =
      runRequests cfg now skew n (request cfg now skew st0 w t).state
        (request cfg now skew st0 w t).world (request cfg now skew st0 w t).transport from rfl]
    rw [hstep.2]
    refine ⟨hinv.2.1, hinv.2.2.2, hinv.1, fun _ => hinv.2.2.1, fun hs hh => ?_⟩
    rw [addDefaultHeaders_xAuthToken cfg _ hs hh]
    exact hinv.1

/-- Witness for C3: two requests with a forced token consume no
authentication response and perform zero authentication calls. -/
theorem c3_witness :
    truthy c3Cfg.forcedAuthToken = true ∧
    initConn c3Cfg = Except.ok (initialState c3Cfg) ∧
    (runRequests c3Cfg 0 0 2 (initialState c3Cfg) [ctxA]
        [TransportResult.ok "r1", TransportResult.ok "r2"]).1.authCalls = 0 ∧
    (runRequests c3Cfg 0 0 2 (initialState c3Cfg) [ctxA]
        [TransportResult.ok "r1", TransportResult.ok "r2"]).2.1 = [ctxA] := by
  have h := c3_forced_token_never_authenticates c3Cfg 0 0 2 (initialState c3Cfg) [ctxA]
    [TransportResult.ok "r1", TransportResult.ok "r2"] (by decide) rfl
  exact ⟨by decide, rfl, h.1, h.2.1⟩

/-- C6: a valid cached auth context makes request preparation skip the
handshake and reuse the stored fields, so two successive preparations
starting from an invalid cache and a response yielding a non-expired
context perform exactly one authentication call, the second changing
neither token, expiry, user info nor service catalog. -/
theorem c6_cached_token_reused (cfg : Config) (now skew : Int) (st : ConnState)
    (ctx : AuthContext) (rest : List AuthContext)
    (hnf : truthy cfg.forcedAuthToken = false)
    (hinv : isTokenValid now skew st.osaCtx = false)
    (hv : isTokenValid now skew (some ctx) = true) :
    (∀ (st2 : ConnState) (w2 : List AuthContext), isTokenValid now skew st2.osaCtx = true →
      (populate cfg now skew st2 w2).state.authCalls = st2.authCalls ∧
      (populate cfg now skew st2 w2).world = w2 ∧
      (populate cfg now skew st2 w2).state.authToken = st2.authToken ∧
      (populate cfg now skew st2 w2).state.authTokenExpires = st2.authTokenExpires ∧
      (populate cfg now skew st2 w2).state.authUserInfo = st2.authUserInfo ∧
      (populate cfg now skew st2 w2).state.serviceCatalog = st2.serviceCatalog) ∧
    (populate cfg now skew st (ctx :: rest)).state.authCalls = st.authCalls + 1 ∧
    (populate cfg now skew st (ctx :: rest)).world = rest ∧
    (populate cfg now skew (populate cfg now skew st (ctx :: rest)).state
        (populate cfg now skew st (ctx :: rest)).world).state.authCalls = st.authCalls + 1 ∧
    (populate cfg now skew (populate cfg now skew st (ctx :: rest)).state
        (populate cfg now skew st (ctx :: rest)).world).world = rest ∧
    (populate cfg now skew (populate cfg now skew st (ctx :: rest)).state
        (populate cfg now skew st (ctx :: rest)).world).state.authToken = some ctx.token ∧
    (populate cfg now skew (populate cfg now skew st (ctx :: rest)).state
        (populate cfg now skew st (ctx :: rest)).world).state.authTokenExpires = ctx.expires ∧
    (populate cfg now skew (populate cfg now skew st (ctx :: rest)).state
        (populate cfg now skew st (ctx :: rest)).world).state.authUserInfo = ctx.userInfo ∧
    (populate cfg now skew (populate cfg now skew st (ctx :: rest)).state
        (populate cfg now skew st (ctx :: rest)).world).state.serviceCatalog =
      some ctx.urls := by
  have hgen : ∀ (st2 : ConnState) (w2 : List AuthContext),
      isTokenValid now skew st2.osaCtx = true →
      (populate cfg now skew st2 w2).state.authCalls = st2.authCalls ∧
      (populate cfg now skew st2 w2).world = w2 ∧
      (populate cfg now skew st2 w2).state.authToken = st2.authToken ∧
      (populate cfg now skew st2 w2).state.authTokenExpires = st2.authTokenExpires ∧
      (populate cfg now skew st2 w2).state.authUserInfo = st2.authUserInfo ∧
      (populate cfg now skew st2 w2).state.serviceCatalog = st2.serviceCatalog := by
    intro st2 w2 hval
    rw [populate_of_not_forced cfg now skew st2 w2 hnf,
      authStep_of_valid now skew st2 w2 hval]
    have pre := afterAuthStep_preserve cfg { state := st2, error := none, world := w2 }
    exact ⟨pre.2.2.2.2.2.1, pre.2.2.2.2.2.2, pre.1, pre.2.1, pre.2.2.1, pre.2.2.2.1⟩
  have hA := populate_of_not_forced cfg now skew st (ctx :: rest) hnf
  rw [authStep_of_invalid now skew st ctx rest hinv] at hA
  have pre1 := afterAuthStep_preserve cfg
    { state :=
        { st with
          osaCtx := some ctx
          authToken := some ctx.token
          authTokenExpires := ctx.expires
          authUserInfo := ctx.userInfo
          serviceCatalog := some ctx.urls
          authCalls := st.authCalls + 1 }
      error := none
      world := rest }
  have h1c : (populate cfg now skew st (ctx :: rest)).state.authCalls = st.authCalls + 1 := by
    rw [hA]
    exact pre1.2.2.2.2.2.1
  have h1w : (populate cfg now skew st (ctx :: rest)).world = rest := by
    rw [hA]
    exact pre1.2.2.2.2.2.2
  have h1t : (populate cfg now skew st (ctx :: rest)).state.authToken = some ctx.token := by
    rw [hA]
    exact pre1.1
  have h1e : (populate cfg now skew st (ctx :: rest)).state.authTokenExpires = ctx.expires := by
    rw [hA]
    exact pre1.2.1
  have h1u : (populate cfg now skew st (ctx :: rest)).state.authUserInfo = ctx.userInfo := by
    rw [hA]
    exact pre1.2.2.1
  have h1s : (populate cfg now skew st (ctx :: rest)).state.serviceCatalog = some ctx.urls := by
    rw [hA]
    exact pre1.2.2.2.1
  have h1o : (populate cfg now skew st (ctx :: rest)).state.osaCtx = some ctx := by
    rw [hA]
    exact pre1.2.2.2.2.1
  have hval2 : isTokenValid now skew (populate cfg now skew st (ctx :: rest)).state.osaCtx
      = true := by
    rw [h1o]
    exact hv
  have hsec := hgen (populate cfg now skew st (ctx :: rest)).state
    (populate cfg now skew st (ctx :: rest)).world hval2
  refine ⟨hgen, h1c, h1w, ?_, ?_, ?_, ?_, ?_, ?_⟩
  · rw [hsec.1, h1c]
  · rw [hsec.2.1, h1w]
  · rw [hsec.2.2.1, h1t]
  · rw [hsec.2.2.2.1, h1e]
  · rw [hsec.2.2.2.2.1, h1u]
  · rw [hsec.2.2.2.2.2, h1s]

/-- Witness for C6: a first preparation authenticates once, a second with
the now-valid cached context performs no further authentication call. -/
theorem c6_witness :
    truthy cfgPlain.forcedAuthToken = false ∧
    isTokenValid 0 0 (some ctxA) = true ∧
    (populate cfgPlain 0 0 (initialState cfgPlain) [ctxA]).state.authCalls =
      (initialState cfgPlain).authCalls + 1 ∧
    (populate cfgPlain 0 0 (populate cfgPlain 0 0 (initialState cfgPlain) [ctxA]).state
        (populate cfgPlain 0 0 (initialState cfgPlain) [ctxA]).world).state.authCalls =
      (initialState cfgPlain).authCalls + 1 := by
  have h := c6_cached_token_reused cfgPlain 0 0 (initialState cfgPlain) ctxA []
    (by decide) (by decide) (by decide)
  exact ⟨by decide, by decide, h.2.1, h.2.2.2.1⟩

/-- C7: endpoint selection overlays forced overrides on the defaults — a
forced value wins exactly when it is present — and a truthy forced base URL
is used directly as connection info without consulting the service catalog
at all. -/
theorem c7_endpoint_override_and_bypass (cfg : Config) (now skew : Int) (st : ConnState)
    (w : List AuthContext) (cat : List CatalogEntry) :
    (truthy cfg.forcedServiceType = true → effectiveServiceType cfg = cfg.forcedServiceType) ∧
    (truthy cfg.forcedServiceType = false → effectiveServiceType cfg = cfg.serviceType) ∧
    (truthy cfg.forcedServiceName = true → effectiveServiceName cfg = cfg.forcedServiceName) ∧
    (truthy cfg.forcedServiceName = false → effectiveServiceName cfg = cfg.serviceName) ∧
    (truthy cfg.forcedServiceRegion = true →
      effectiveServiceRegion cfg = cfg.forcedServiceRegion) ∧
    (truthy cfg.forcedServiceRegion = false →
      effectiveServiceRegion cfg = cfg.serviceRegion) ∧
    (getEndpoint cfg cat =
      getEndpoint
        { cfg with
          serviceType := effectiveServiceType cfg
          serviceName := effectiveServiceName cfg
          serviceRegion := effectiveServiceRegion cfg
          forcedServiceType := none
          forcedServiceName := none
          forcedServiceRegion := none } cat) ∧
    (truthy cfg.forcedBaseUrl = true →
      (populate cfg now skew st w).state.catalogLookups = st.catalogLookups ∧
      ((populate cfg now skew st w).error = none →
        (populate cfg now skew st w).state.connInfo = cfg.forcedBaseUrl)) := by
  refine ⟨?_, ?_, ?_, ?_, ?_, ?_, ?_, ?_⟩
  · intro h
    simp [effectiveServiceType, h]
  · intro h
    simp [effectiveServiceType, h]
  · intro h
    simp [effectiveServiceName, h]
  · intro h
    simp [effectiveServiceName, h]
  · intro h
    simp [effectiveServiceRegion, h]
  · intro h
    simp [effectiveServiceRegion, h]
  · rfl
  · intro hb
    cases hft : truthy cfg.forcedAuthToken with
    | true =>
      constructor
      · simp [populate, hft]
      · intro _
        simp [populate, hft]
    | false =>
      rw [populate_of_not_forced cfg now skew st w hft]
      rcases he : (authStep now skew st w).error with _ | e
      · rw [show afterAuthStep cfg (authStep now skew st w) =
          endpointStep cfg (authStep now skew st w).state (authStep now skew st w).world from by
            unfold afterAuthStep
            rw [he]]
        rw [endpointStep_of_forced_base cfg _ _ hb]
        constructor
        · exact authStep_catalogLookups now skew st w
        · intro _
          rfl
      · rw [show afterAuthStep cfg (authStep now skew st w) = authStep now skew st w from by
          unfold afterAuthStep
          rw [he]]
        constructor
        · exact authStep_catalogLookups now skew st w
        · intro hnone
          rw [he] at hnone
          exact absurd hnone (by simp)

/-- Witness for C7: with a truthy forced base URL the catalog counter stays
put; with no forced service type the effective type is the default. -/
theorem c7_witness :
    truthy cfgPlain.forcedBaseUrl = true ∧
    effectiveServiceType cfgPlain = cfgPlain.serviceType ∧
    (populate cfgPlain 0 0 (initialState cfgPlain) [ctxA]).state.catalogLookups =
      (initialState cfgPlain).catalogLookups := by
  have h := c7_endpoint_override_and_bypass cfgPlain 0 0 (initialState cfgPlain) [ctxA] []
  exact ⟨by decide, h.2.1 (by decide), (h.2.2.2.2.2.2.2 (by decide)).1⟩

end MistCe
